import Mathlib

/-!
Shallow embedding, in Lean 4, of `src/mkdocs/config/config_options.py`:
the option model (`BaseConfigOption`) and the option kinds `Type`, `URL`,
`RepoURL`, `Dir`, `SiteDir`, `ThemeDir`, `Extras`, `Pages` and `NumPages`.

Python values that can appear in a configuration mapping are modelled by
the inductive type `Val`; Python `None` (an absent option value) is
modelled by `Option Val` with `none` for absence; a raised
`ValidationError` is modelled by `Except String _` with the error message
as the `String`.  Filesystem collaborators (`os.path.isdir`, the docs
directory tree walked by `os.walk`) are explicit parameters, and the
current working directory used by `os.path.abspath` is an explicit `cwd`
argument.  Machine-level details (Python 2 `unicode` vs `str`, non-ASCII
case mapping) are outside the configurations the claims quantify over;
strings are modelled as Lean `String`s and case mapping as ASCII case
mapping.
-/

/-- A Python value as it can appear in a raw configuration: a string, an
integer, a boolean, a plain list, or an `OrderedDict` (a nested ordered
mapping, kept as an ordered association list). -/
inductive Val where
  | vstr (s : String)
  | vint (n : Int)
  | vbool (b : Bool)
  | vlist (l : List Val)
  | vdict (entries : List (String × Val))

/-- The Python type tag `type(v)` of a configuration value. -/
inductive PyType where
  | tstr
  | tint
  | tbool
  | tlist
  | tdict
deriving DecidableEq

/-- `type(v)` for the modelled value universe. -/
def typeOf : Val → PyType
  | .vstr _ => .tstr
  | .vint _ => .tint
  | .vbool _ => .tbool
  | .vlist _ => .tlist
  | .vdict _ => .tdict

/-- Printable name of a Python type, used in error messages (the exact
rendering of `str(type(v))` is not load-bearing for any claim). -/
def typeName : PyType → String
  | .tstr => "str"
  | .tint => "int"
  | .tbool => "bool"
  | .tlist => "list"
  | .tdict => "OrderedDict"

/-- The state of `BaseConfigOption.__init__`: the declared default
(`None` modelled as `none`) and the required flag.  The `warnings` list
plays no part in any claim and carries no data relevant here. -/
structure BaseConfigOption where
  default : Option Val
  required : Bool

/-- `BaseConfigOption.validate` (config_options.py lines 29-46).  The
subclass's `run_validation` is passed explicitly (dynamic dispatch made
explicit); it may itself resolve to absence (as `Pages.run_validation`
does on an empty list), hence its `Except String (Option Val)` result.

Mirrors: if the value is absent, substitute the default when one is
declared; otherwise return absent when not required, and raise
"Required configuration not provided." when required; finally delegate
to `run_validation`. -/
def BaseConfigOption.validate (opt : BaseConfigOption)
    (run_validation : Val → Except String (Option Val)) (value : Option Val) :
    Except String (Option Val) :=
  match value with
  | none =>
    match opt.default with
    | some d => run_validation d
    | none =>
      if !opt.required then .ok none
      else .error "Required configuration not provided."
  | some v => run_validation v

/-- `BaseConfigOption.run_validation`: the base subclass check returns
the value unchanged. -/
def BaseConfigOption.run_validation (v : Val) : Except String (Option Val) :=
  .ok (some v)

/-- `Type.run_validation` (config_options.py lines 77-89): fail unless
the value has the declared type; when a fixed length is declared, fail
unless the length matches; otherwise return the value unchanged. -/
def TypeOpt.run_validation (type_ : PyType) (length : Option Nat) (v : Val) :
    Except String Val :=
  if typeOf v != type_ then
    .error ("Expected type: " ++ typeName type_ ++ " but recieved: "
      ++ typeName (typeOf v))
  else
    match length, v with
    | some n, .vstr s =>
      if s.length ≠ n then .error "length mismatch" else .ok v
    | some n, .vlist l =>
      if l.length ≠ n then .error "length mismatch" else .ok v
    | some n, .vdict l =>
      if l.length ≠ n then .error "length mismatch" else .ok v
    | some _, _ => .error "length mismatch"
    | none, _ => .ok v

/-- ASCII lower-casing of one character (`str.lower` on the ASCII hosts
and paths the code handles). -/
def asciiLowerChar (c : Char) : Char :=
  if 65 ≤ c.toNat ∧ c.toNat ≤ 90 then Char.ofNat (c.toNat + 32) else c

/-- ASCII upper-casing of one character. -/
def asciiUpperChar (c : Char) : Char :=
  if 97 ≤ c.toNat ∧ c.toNat ≤ 122 then Char.ofNat (c.toNat - 32) else c

/-- `str.lower` (ASCII). -/
def asciiLower (s : String) : String :=
  ⟨s.data.map asciiLowerChar⟩

/-- Worker for `pyTitle`: the Boolean records whether the previous
character was alphabetic (Python title-cases the first letter of each
alphabetic run and lower-cases the rest of the run). -/
def titleGo : Bool → List Char → List Char
  | _, [] => []
  | prevAlpha, c :: rest =>
    let isA := c.isAlpha
    (if isA then (if prevAlpha then asciiLowerChar c else asciiUpperChar c) else c)
      :: titleGo isA rest

/-- `str.title` (ASCII): upper-case each letter that starts an
alphabetic run, lower-case the other letters. -/
def pyTitle (s : String) : String :=
  ⟨titleGo false s.data⟩

/-- Whether a candidate scheme (the text before the first colon) is a
valid URL scheme for `urllib.parse`: a letter followed by letters,
digits, `+`, `-` or `.`. -/
def validScheme : List Char → Bool
  | [] => false
  | c :: rest =>
    c.isAlpha && rest.all (fun d => d.isAlphanum || d = '+' || d = '-' || d = '.')

/-- The `netloc` component of `urllib.parse.urlparse`: strip a valid
`scheme:` head if present, then, when the remainder starts with `//`,
the netloc is what follows up to the next `/`, `?` or `#`; otherwise it
is empty. -/
def netlocOf (url : String) : String :=
  let l := url.data
  let i := (l.takeWhile (fun c => c ≠ ':')).length
  let rest := if i < l.length ∧ 0 < i ∧ validScheme (l.take i) then l.drop (i + 1) else l
  match rest with
  | '/' :: '/' :: r => ⟨r.takeWhile (fun c => c ≠ '/' ∧ c ≠ '?' ∧ c ≠ '#')⟩
  | _ => ""

/-- `RepoURL.post_validation` (config_options.py lines 121-131), acting
on the two fields it reads and writes: when `repo_url` is non-absent and
`repo_name` is unset, derive `repo_name` from the lower-cased host of
the URL (`github.com` gives GitHub, `bitbucket.org` gives Bitbucket,
otherwise the first dot-separated label of the host, title-cased, i.e.
`repo_host.split(chr 46)[0].title()`); otherwise leave `repo_name`
unchanged.  Returns the resulting `repo_name`. -/
def RepoURL.post_validation (repo_url repo_name : Option String) : Option String :=
  match repo_url, repo_name with
  | some url, none =>
    let repo_host := asciiLower (netlocOf url)
    if repo_host == "github.com" then some "GitHub"
    else if repo_host == "bitbucket.org" then some "Bitbucket"
    else some (pyTitle ⟨repo_host.data.takeWhile (fun c => c ≠ '.')⟩)
  | _, rn => rn

/-- `os.path.join(a, b)` (posix, two arguments): an absolute second
component replaces the first; otherwise the components are joined with a
single separator. -/
def pyJoin (a b : String) : String :=
  if b.data.take 1 = ['/'] then b
  else if a = "" ∨ a.data.getLast? = some '/' then a ++ b
  else a ++ "/" ++ b

/-- Split a character list on a separator character (`str.split(sep)`:
the result always has one more piece than there are separators). -/
def splitOnChar (sep : Char) : List Char → List (List Char)
  | [] => [[]]
  | c :: rest =>
    let r := splitOnChar sep rest
    if c = sep then [] :: r
    else
      match r with
      | h :: t => (c :: h) :: t
      | [] => [[c]]

/-- The component loop of `posixpath.normpath`: drop empty and `.`
components; a `..` is appended when at a relative root or after another
`..`, and otherwise pops the previous component. -/
def normParts (initSlashes : Nat) (comps : List String) : List String :=
  comps.foldl
    (fun acc comp =>
      if comp = "" ∨ comp = "." then acc
      else if comp ≠ ".." ∨ (initSlashes = 0 ∧ acc = []) ∨ acc.getLast? = some ".." then
        acc ++ [comp]
      else acc.dropLast)
    []

/-- `posixpath.normpath`: collapse separators and `.` components,
resolve `..`, keep one leading slash (two when the path starts with
exactly two). -/
def pyNormpath (s : String) : String :=
  if s = "" then "." else
  let l := s.data
  let initSlashes : Nat :=
    if l.take 1 = ['/'] then
      (if l.take 2 = ['/', '/'] ∧ l.take 3 ≠ ['/', '/', '/'] then 2 else 1)
    else 0
  let comps := (splitOnChar '/' l).map (fun cs => (⟨cs⟩ : String))
  let path :=
    (⟨List.replicate initSlashes '/'⟩ : String)
      ++ String.intercalate "/" (normParts initSlashes comps)
  if path = "" then "." else path

/-- `os.path.abspath` with the working directory explicit:
`normpath(join(cwd, path))` (an absolute `path` replaces `cwd` inside
`join`). -/
def pyAbspath (cwd s : String) : String :=
  pyNormpath (pyJoin cwd s)

/-- `Dir.run_validation` (config_options.py lines 145-152): the `Type`
check for a string first (the `Dir` constructor declares
`type_=six.string_types`), then the optional existence check against the
filesystem collaborator `isdir`, then `os.path.abspath`.  After the type
check passes the value is a string, so the non-string fallthrough arm is
unreachable. -/
def Dir.run_validation (exists_ : Bool) (isdir : String → Bool) (cwd : String)
    (v : Val) : Except String (Option Val) :=
  match TypeOpt.run_validation .tstr none v with
  | .error msg => .error msg
  | .ok v' =>
    match v' with
    | .vstr s =>
      if exists_ ∧ ¬ isdir s then
        .error ("The path " ++ s ++ " doesn't exist")
      else .ok (some (.vstr (pyAbspath cwd s)))
    | _ => .error "unreachable: the type check only passes strings"

/-- Python `a.startswith(b)`: is `b` a character-list prefix of `a`. -/
def pyStartswith (a b : String) : Bool :=
  b.data.isPrefixOf a.data

/-- `SiteDir.post_validation` (config_options.py lines 162-172): raise
when the already-validated `docs_dir` string starts with the `site_dir`
string, then when `site_dir` starts with `docs_dir`; succeed
otherwise. -/
def SiteDir.post_validation (docs_dir site_dir : String) : Except String Unit :=
  if pyStartswith docs_dir site_dir then
    .error "The 'docs_dir' can't be within the 'site_dir'."
  else if pyStartswith site_dir docs_dir then
    .error "The 'site_dir' can't be within the 'docs_dir'."
  else .ok ()

/-- `ThemeDir.post_validation` (config_options.py lines 185-207), on the
fields it touches.  A `user_configs` layer is modelled by its list of
keys, so Python's `(chr 116 ...)theme(...) in c` dict-membership test is
list membership of the exact key.  Inputs: the ordered layer key lists,
the package directory (`os.path.dirname(__file__) + /..`), the validated
`theme` name and the validated `theme_dir` override (absent or a path).
Output: the assembled `theme_dir` list and the `mkdocs_templates` side
effect. -/
def ThemeDir.post_validation (user_configs : List (List String))
    (package_dir theme : String) (theme_dir : Option String) :
    List String × String :=
  let theme_in_config := user_configs.any (fun c => c.contains "theme")
  let builtin := pyJoin (pyJoin package_dir "themes") theme
  let mkdocs_templates := pyJoin package_dir "templates"
  let dirs :=
    match theme_dir with
    | none => [builtin]
    | some override => override :: (if theme_in_config then [builtin] else [])
  let search_assets := pyJoin (pyJoin package_dir "assets") "search"
  (dirs ++ [search_assets], mkdocs_templates)
/-- Lexicographic code-point comparison of character lists (Python
string comparison, `a <= b`). -/
def lexLe : List Char → List Char → Bool
  | [], _ => true
  | _ :: _, [] => false
  | a :: as, b :: bs =>
    if a.toNat < b.toNat then true
    else if b.toNat < a.toNat then false
    else lexLe as bs

/-- Insert a string into an already sorted list (worker for
`sortStrings`). -/
def insertStr (x : String) : List String → List String
  | [] => [x]
  | y :: ys => if lexLe x.data y.data then x :: y :: ys else y :: insertStr x ys

/-- Python `sorted` on a list of strings (insertion sort under the
code-point order). -/
def sortStrings : List String → List String
  | [] => []
  | x :: xs => insertStr x (sortStrings xs)

/-- A docs directory tree: the filesystem collaborator that
`os.walk(docs_dir)` traverses.  Each node lists its file names and its
subdirectories in `os.listdir` order. -/
inductive FTree where
  | mk (files : List String) (subdirs : List (String × FTree))

/-- The relative path of an entry named `name` inside the directory
whose path relative to the docs root is `pfx`: what
`os.path.normpath(os.path.relpath(os.path.join(dirpath, name), docs_dir))`
yields for the walked entries. -/
def relJoin (pfx name : String) : String :=
  if pfx = "" then name else pfx ++ "/" ++ name

mutual

/-- `Extras.walk_docs_dir` (config_options.py lines 255-261) from the
directory at relative path `pfx`: `os.walk` visits a directory's files
in sorted order (the code sorts `filenames`), yields the relative path
of each file passing `file_match`, then recurses into the
subdirectories in listing order (depth-first). -/
def walkFrom (file_match : String → Bool) (pfx : String) : FTree → List String
  | .mk files subdirs =>
    ((sortStrings files).map (relJoin pfx)).filter file_match
      ++ walkSubdirs file_match pfx subdirs

/-- Recursion over the subdirectory list for `walkFrom`. -/
def walkSubdirs (file_match : String → Bool) (pfx : String) :
    List (String × FTree) → List String
  | [] => []
  | (d, t) :: rest =>
    walkFrom file_match (relJoin pfx d) t ++ walkSubdirs file_match pfx rest

end

/-- `Extras.walk_docs_dir` applied to the docs root. -/
def Extras.walk_docs_dir (file_match : String → Bool) (docs_dir : FTree) :
    List String :=
  walkFrom file_match "" docs_dir

/-- `Extras.post_validation` (config_options.py lines 263-273): when the
field is still absent, populate it with the walked file list. -/
def Extras.post_validation (file_match : String → Bool)
    (current : Option (List String)) (docs_dir : FTree) : Option (List String) :=
  match current with
  | some v => some v
  | none => some (Extras.walk_docs_dir file_match docs_dir)

/-- `os.path.splitext` (posix): split at the last dot of the basename,
unless every character of the basename before that dot is itself a dot
(then nothing is split off). -/
def splitext (s : String) : String × String :=
  let l := s.data
  let base := (l.reverse.takeWhile (fun c => c ≠ '/')).reverse
  let dirLen := l.length - base.length
  let revExtLen := (base.reverse.takeWhile (fun c => c ≠ '.')).length
  if revExtLen = base.length then (s, "")
  else
    let d := base.length - revExtLen - 1
    if (base.take d).all (fun c => c = '.') then (s, "")
    else (⟨l.take (dirLen + d)⟩, ⟨l.drop (dirLen + d)⟩)

/-- Modelled from the spec: `utils.is_markdown_file`, the
path-classification predicate for a "markdown/documentation source
file" (an external collaborator, not part of the snippet): true when
the file path's lower-cased extension is one of the recognized Markdown
extensions. -/
def is_markdown_file (path : String) : Bool :=
  let ext := asciiLower (splitext path).2
  ext == ".markdown" || ext == ".mdown" || ext == ".mkdn" || ext == ".mkd" || ext == ".md"

/-- The outcome of `Pages.run_validation` on a present page list: either
the list returned unchanged (current string/ordered-mapping format), or
the list handed to `legacy.pages_compat_shim` (the external legacy
migration collaborator; its output shape is outside this snippet, so
the application of the shim is recorded as a constructor). -/
inductive PagesOutcome where
  | unchanged (l : List Val)
  | migrated (l : List Val)

/-- `Pages.run_validation` (config_options.py lines 288-306): a
non-list raises; an empty list resolves to absent; a list whose entry
types are all among str and OrderedDict is returned unchanged; a list
whose entry types are all among str and list goes through the legacy
compatibility shim; anything else raises "Invalid pages config.". -/
def Pages.run_validation (value : Val) : Except String (Option PagesOutcome) :=
  match value with
  | .vlist l =>
    if l.length = 0 then .ok none
    else if l.all (fun e => typeOf e == .tstr || typeOf e == .tdict) then
      .ok (some (.unchanged l))
    else if l.all (fun e => typeOf e == .tstr || typeOf e == .tlist) then
      .ok (some (.migrated l))
    else .error "Invalid pages config."
  | v => .error ("Expected a list, got " ++ typeName (typeOf v))

/-- The membership test of `Pages.post_validation`:
`os.path.splitext(filename)[0] == (chr 105 ...)index`. -/
def isIndexFile (filename : String) : Bool :=
  (splitext filename).1 == "index"

/-- The page-collection loop of `Pages.post_validation` (config_options.py
lines 313-320): walk order in, with each file whose root is exactly
`index` inserted at position 0 and every other file appended. -/
def pagesReorder (files : List String) : List String :=
  files.foldl
    (fun pages filename =>
      if isIndexFile filename then filename :: pages else pages ++ [filename])
    []

/-- `Pages.post_validation` (config_options.py lines 308-322): when the
field is still absent, walk the docs tree with `utils.is_markdown_file`,
reorder (root `index` file to the front), and store
`utils.nest_paths(pages)`.  `utils.nest_paths` (the hierarchical nesting
transform, an external collaborator whose grouping shape is outside this
snippet) is passed in as `nest`. -/
def Pages.post_validation {α : Type} (nest : List String → α)
    (current : Option α) (docs_dir : FTree) : Option α :=
  match current with
  | some v => some v
  | none =>
    some (nest (pagesReorder (Extras.walk_docs_dir is_markdown_file docs_dir)))

/-- Python `len` on a modelled value: defined for the sized values
(strings, lists, ordered mappings); `none` stands for the `TypeError`
that `len` raises on an unsized value (or on Python `None`). -/
def pyLen : Val → Option Nat
  | .vstr s => some s.length
  | .vlist l => some l.length
  | .vdict l => some l.length
  | .vint _ => none
  | .vbool _ => none

/-- `NumPages.post_validation` (config_options.py lines 337-345): when
the field is still absent, set it to whether the length of the `pages`
field exceeds `at_lest`; a `TypeError` from `len` (absent or unsized
`pages`) degrades to `False`. -/
def NumPages.post_validation (at_lest : Nat) (current : Option Val)
    (pages : Option Val) : Option Val :=
  match current with
  | some v => some v
  | none =>
    match pages with
    | none => some (.vbool false)
    | some p =>
      match pyLen p with
      | some n => some (.vbool (decide (n > at_lest)))
      | none => some (.vbool false)

/-- Does `pat` occur as a contiguous substring of the character list
(used to state C6's substring reading of the layer scan). -/
def listContainsSub (pat : List Char) : List Char → Bool
  | [] => pat.isEmpty
  | c :: rest => pat.isPrefixOf (c :: rest) || listContainsSub pat rest

/-- Substring occurrence on strings. -/
def strContainsSub (s pat : String) : Bool :=
  listContainsSub pat.data s.data
/-- The docs tree of the spec's auto-population example: `index.md`,
`a.md` and `b/c.md`. -/
def exampleDocsTree : FTree :=
  .mk ["index.md", "a.md"] [("b", .mk ["c.md"] [])]

/-- C1 counterexample: with `repo_url = https://git.example.com/x` and no
explicit `repo_name`, the code derives `Git` (the first dot-separated
label `git`, title-cased), not `Example` as the claim states. -/
theorem C1_counterexample :
    RepoURL.post_validation (some "https://git.example.com/x") none = some "Git"
      ∧ (some "Git" : Option String) ≠ some "Example" := by
  exact ⟨by decide, by decide⟩

/-- C1 (amended): when `repo_url` is non-absent and `repo_name` unset,
`RepoURL.post_validation` derives `repo_name` from the URL's lower-cased
host — `github.com` gives GitHub, `bitbucket.org` gives Bitbucket, any
other host the first dot-separated label title-cased; the comparison is
case-insensitive, `https://github.com/x/y` gives GitHub, and
`https://git.example.com/x` gives Git (not Example). -/
theorem C1_repo_name_derivation :
    (∀ url rn, RepoURL.post_validation (some url) (some rn) = some rn)
    ∧ (∀ rn, RepoURL.post_validation none rn = rn)
    ∧ (∀ url, asciiLower (netlocOf url) = "github.com" →
        RepoURL.post_validation (some url) none = some "GitHub")
    ∧ (∀ url, asciiLower (netlocOf url) = "bitbucket.org" →
        RepoURL.post_validation (some url) none = some "Bitbucket")
    ∧ (∀ url, asciiLower (netlocOf url) ≠ "github.com" →
        asciiLower (netlocOf url) ≠ "bitbucket.org" →
        RepoURL.post_validation (some url) none
          = some (pyTitle ⟨(asciiLower (netlocOf url)).data.takeWhile (fun c => c ≠ '.')⟩))
    ∧ RepoURL.post_validation (some "https://github.com/x/y") none = some "GitHub"
    ∧ RepoURL.post_validation (some "https://GitHub.COM/x/y") none = some "GitHub"
    ∧ RepoURL.post_validation (some "https://git.example.com/x") none = some "Git" := by
  refine ⟨fun url rn => rfl, fun rn => rfl, ?_, ?_, ?_, by decide, by decide, by decide⟩
  · intro url h
    simp [RepoURL.post_validation, h]
  · intro url h
    simp [RepoURL.post_validation, h]
  · intro url h1 h2
    simp [RepoURL.post_validation, beq_iff_eq, h1, h2]

/-- C1 witness: the derivation cases applied at concrete URLs. -/
theorem C1_witness :
    RepoURL.post_validation (some "http://github.com/a/b") none = some "GitHub"
    ∧ RepoURL.post_validation (some "http://bitbucket.org/a") none = some "Bitbucket"
    ∧ RepoURL.post_validation (some "http://docs.python.org/x") none
        = some (pyTitle ⟨(asciiLower (netlocOf "http://docs.python.org/x")).data.takeWhile (fun c => c ≠ '.')⟩) :=
  ⟨C1_repo_name_derivation.2.2.1 "http://github.com/a/b" (by decide),
   C1_repo_name_derivation.2.2.2.1 "http://bitbucket.org/a" (by decide),
   C1_repo_name_derivation.2.2.2.2.1 "http://docs.python.org/x" (by decide) (by decide)⟩

/-- C2 counterexample: a `Dir` option with declared default `docs` and an
absent raw value does not return the default unchanged — the default is
passed through `Dir.run_validation`, which returns its absolute path
(`/cwd/docs` for working directory `/cwd`). -/
theorem C2_counterexample :
    BaseConfigOption.validate ⟨some (.vstr "docs"), false⟩
        (Dir.run_validation false (fun _ => false) "/cwd") none
      = .ok (some (.vstr "/cwd/docs"))
    ∧ Val.vstr "/cwd/docs" ≠ Val.vstr "docs" := by
  refine ⟨rfl, ?_⟩
  simp

/-- C2 (amended): for every option with a declared default, `validate` on
an absent raw value substitutes the default and returns the result of the
subclass `run_validation` on it; for the base contract (and any kind whose
`run_validation` returns its input unchanged) this is the default
unchanged, but a `Dir` option returns the absolute path of the default,
which can differ from the declared default. -/
theorem C2_default_substitution :
    (∀ opt runV d, opt.default = some d →
      BaseConfigOption.validate opt runV none = runV d)
    ∧ (∀ d req, BaseConfigOption.validate ⟨some d, req⟩
          BaseConfigOption.run_validation none = .ok (some d))
    ∧ (∀ req isdir cwd s, BaseConfigOption.validate ⟨some (.vstr s), req⟩
          (Dir.run_validation false isdir cwd) none
        = .ok (some (.vstr (pyAbspath cwd s)))) := by
  refine ⟨?_, fun d req => rfl, ?_⟩
  · intro opt runV d h
    cases opt with
    | mk default required => cases h; rfl
  · intro req isdir cwd s
    rfl

/-- C2 witness: the substitution equation applied at a concrete option. -/
theorem C2_witness :
    BaseConfigOption.validate ⟨some (.vbool true), true⟩
        BaseConfigOption.run_validation none
      = BaseConfigOption.run_validation (.vbool true) :=
  C2_default_substitution.1 ⟨some (.vbool true), true⟩ BaseConfigOption.run_validation
    (.vbool true) rfl

/-- C3: a required option with no declared default fails on an absent raw
value with exactly "Required configuration not provided.", whatever the
subclass check; a non-required option with no default resolves to absent,
and the subclass check is never consulted (the result is `ok none` for
every `run_validation`). -/
theorem C3_required_absent :
    (∀ opt runV, opt.default = none → opt.required = true →
      BaseConfigOption.validate opt runV none
        = .error "Required configuration not provided.")
    ∧ (∀ opt runV, opt.default = none → opt.required = false →
      BaseConfigOption.validate opt runV none = .ok none) := by
  constructor
  · intro opt runV hd hr
    cases opt with
    | mk default required => cases hd; cases hr; rfl
  · intro opt runV hd hr
    cases opt with
    | mk default required => cases hd; cases hr; rfl

/-- C3 witness: both absent-value cases at concrete options. -/
theorem C3_witness :
    BaseConfigOption.validate ⟨none, true⟩ BaseConfigOption.run_validation none
      = .error "Required configuration not provided."
    ∧ BaseConfigOption.validate ⟨none, false⟩ BaseConfigOption.run_validation none
      = .ok none :=
  ⟨C3_required_absent.1 ⟨none, true⟩ BaseConfigOption.run_validation rfl rfl,
   C3_required_absent.2 ⟨none, false⟩ BaseConfigOption.run_validation rfl rfl⟩

/-- C4: `SiteDir.post_validation` fails exactly when one of the two
directory strings is a character-wise prefix of the other, with a
distinct message for each direction (`docs_dir` inside `site_dir`
checked first), and succeeds when neither is a prefix of the other. -/
theorem C4_sitedir_containment (D S : String) :
    (SiteDir.post_validation D S = .ok ()
      ↔ ¬ S.data <+: D.data ∧ ¬ D.data <+: S.data)
    ∧ (S.data <+: D.data →
        SiteDir.post_validation D S = .error "The 'docs_dir' can't be within the 'site_dir'.")
    ∧ (D.data <+: S.data → ¬ S.data <+: D.data →
        SiteDir.post_validation D S = .error "The 'site_dir' can't be within the 'docs_dir'.") := by
  have hp : pyStartswith D S = true ↔ S.data <+: D.data := by
    simp [pyStartswith, List.isPrefixOf_iff_prefix]
  have hq : pyStartswith S D = true ↔ D.data <+: S.data := by
    simp [pyStartswith, List.isPrefixOf_iff_prefix]
  by_cases h1 : pyStartswith D S = true
  · have hsd := hp.mp h1
    simp [SiteDir.post_validation, h1, hsd]
  · have hsd : ¬ S.data <+: D.data := fun h => h1 (hp.mpr h)
    by_cases h2 : pyStartswith S D = true
    · have hds := hq.mp h2
      simp [SiteDir.post_validation, h1, h2, hds, hsd]
    · have hds : ¬ D.data <+: S.data := fun h => h2 (hq.mpr h)
      simp [SiteDir.post_validation, h1, h2, hds, hsd]

/-- C5: the assembled `theme_dir` list has exactly three shapes — no
override gives builtin then search assets; an override with the `theme`
key explicitly present in some `user_configs` layer gives override,
builtin, search assets; an override with no such key gives override then
search assets — and the search-assets directory is always the last
element, never omitted. -/
theorem C5_themedir_shapes (ucs : List (List String)) (pkg theme od : String) :
    ((ThemeDir.post_validation ucs pkg theme none).1
      = [pyJoin (pyJoin pkg "themes") theme, pyJoin (pyJoin pkg "assets") "search"])
    ∧ (ucs.any (fun c => c.contains "theme") = true →
        (ThemeDir.post_validation ucs pkg theme (some od)).1
          = [od, pyJoin (pyJoin pkg "themes") theme, pyJoin (pyJoin pkg "assets") "search"])
    ∧ (ucs.any (fun c => c.contains "theme") = false →
        (ThemeDir.post_validation ucs pkg theme (some od)).1
          = [od, pyJoin (pyJoin pkg "assets") "search"])
    ∧ (∀ tdo : Option String,
        ((ThemeDir.post_validation ucs pkg theme tdo).1).getLast?
          = some (pyJoin (pyJoin pkg "assets") "search")) := by
  refine ⟨rfl, fun h => ?_, fun h => ?_, fun tdo => ?_⟩
  · show od :: ((if ucs.any (fun c => c.contains "theme") then
        [pyJoin (pyJoin pkg "themes") theme] else [])
          ++ [pyJoin (pyJoin pkg "assets") "search"]) = _
    rw [h]
    rfl
  · show od :: ((if ucs.any (fun c => c.contains "theme") then
        [pyJoin (pyJoin pkg "themes") theme] else [])
          ++ [pyJoin (pyJoin pkg "assets") "search"]) = _
    rw [h]
    rfl
  · cases tdo with
    | none => rfl
    | some od' =>
      show ((od' :: (if ucs.any (fun c => c.contains "theme") then
          [pyJoin (pyJoin pkg "themes") theme] else []))
            ++ [pyJoin (pyJoin pkg "assets") "search"]).getLast? = _
      exact List.getLast?_concat _

/-- C5 witness: the three override shapes at concrete inputs. -/
theorem C5_witness :
    (ThemeDir.post_validation [["theme"]] "/pkg" "mkdocs" (some "/custom")).1
      = ["/custom", pyJoin (pyJoin "/pkg" "themes") "mkdocs", pyJoin (pyJoin "/pkg" "assets") "search"]
    ∧ (ThemeDir.post_validation [["site_name"]] "/pkg" "mkdocs" (some "/custom")).1
      = ["/custom", pyJoin (pyJoin "/pkg" "assets") "search"] :=
  ⟨(C5_themedir_shapes [["theme"]] "/pkg" "mkdocs" "/custom").2.1 (by decide),
   (C5_themedir_shapes [["site_name"]] "/pkg" "mkdocs" "/custom").2.2.1 (by decide)⟩

/-- C6 counterexample: the layer key `theme_dir` contains the substring
`theme`, yet with a custom `theme_dir` override the built-in theme
directory is dropped — the code tests dict membership of the exact key
`theme`, not a substring scan over keys. -/
theorem C6_counterexample :
    strContainsSub "theme_dir" "theme" = true
    ∧ (ThemeDir.post_validation [["theme_dir"]] "/pkg" "mkdocs" (some "/custom")).1
        = ["/custom", "/pkg/assets/search"]
    ∧ "/pkg/themes/mkdocs" ∉
        (ThemeDir.post_validation [["theme_dir"]] "/pkg" "mkdocs" (some "/custom")).1 := by
  exact ⟨by decide, by decide, by decide⟩

/-- C6 (amended): with a non-absent `theme_dir` override, the built-in
theme directory is dropped exactly when no `user_configs` layer contains
the exact key `theme` (dict membership), and retained after the override
exactly when some layer does. -/
theorem C6_theme_key_exact (ucs : List (List String)) (pkg theme od : String) :
    (ucs.any (fun c => c.contains "theme") = true ↔ ∃ c ∈ ucs, "theme" ∈ c)
    ∧ ((ThemeDir.post_validation ucs pkg theme (some od)).1
        = [od, pyJoin (pyJoin pkg "assets") "search"]
      ↔ ¬ ∃ c ∈ ucs, "theme" ∈ c)
    ∧ ((ThemeDir.post_validation ucs pkg theme (some od)).1
        = [od, pyJoin (pyJoin pkg "themes") theme, pyJoin (pyJoin pkg "assets") "search"]
      ↔ ∃ c ∈ ucs, "theme" ∈ c) := by
  have hmem : ucs.any (fun c => c.contains "theme") = true ↔ ∃ c ∈ ucs, "theme" ∈ c := by
    simp [List.any_eq_true, List.contains]
  have hb : ∀ b : Bool, ucs.any (fun c => c.contains "theme") = b →
      (ThemeDir.post_validation ucs pkg theme (some od)).1
        = od :: ((if b then [pyJoin (pyJoin pkg "themes") theme] else [])
            ++ [pyJoin (pyJoin pkg "assets") "search"]) := by
    intro b h
    show od :: ((if ucs.any (fun c => c.contains "theme") then
        [pyJoin (pyJoin pkg "themes") theme] else [])
          ++ [pyJoin (pyJoin pkg "assets") "search"]) = _
    rw [h]
  refine ⟨hmem, ?_, ?_⟩
  · by_cases h : ucs.any (fun c => c.contains "theme") = true
    · rw [hb true h]
      constructor
      · intro heq
        exact absurd heq (by simp)
      · intro hn
        exact absurd (hmem.mp h) hn
    · have h' : ucs.any (fun c => c.contains "theme") = false := by
        cases hv : ucs.any (fun c => c.contains "theme") with
        | false => rfl
        | true => exact absurd hv h
      rw [hb false h']
      exact ⟨fun _ he => h (hmem.mpr he), fun _ => rfl⟩
  · by_cases h : ucs.any (fun c => c.contains "theme") = true
    · rw [hb true h]
      exact ⟨fun _ => hmem.mp h, fun _ => rfl⟩
    · have h' : ucs.any (fun c => c.contains "theme") = false := by
        cases hv : ucs.any (fun c => c.contains "theme") with
        | false => rfl
        | true => exact absurd hv h
      rw [hb false h']
      constructor
      · intro heq
        exact absurd heq (by simp)
      · intro he
        exact absurd (hmem.mpr he) h

/-- C7: `Pages.run_validation` classifies every raw value — non-list
raises; empty list resolves to absent; a non-empty list whose entry
types are among string and ordered mapping is returned unchanged; a
non-empty list whose entry types are among string and plain list (with
at least one plain list, so the first rule does not apply) goes to the
legacy migration shim; any other mixture raises "Invalid pages
config.". -/
theorem C7_pages_shapes :
    (∀ v, typeOf v ≠ .tlist →
      Pages.run_validation v = .error ("Expected a list, got " ++ typeName (typeOf v)))
    ∧ Pages.run_validation (.vlist []) = .ok none
    ∧ (∀ l, l ≠ [] → (∀ e ∈ l, typeOf e = .tstr ∨ typeOf e = .tdict) →
        Pages.run_validation (.vlist l) = .ok (some (.unchanged l)))
    ∧ (∀ l, l ≠ [] → (∀ e ∈ l, typeOf e = .tstr ∨ typeOf e = .tlist) →
        (∃ e ∈ l, typeOf e = .tlist) →
        Pages.run_validation (.vlist l) = .ok (some (.migrated l)))
    ∧ (∀ l, l ≠ [] → (∃ e ∈ l, typeOf e ≠ .tstr ∧ typeOf e ≠ .tdict) →
        (∃ e ∈ l, typeOf e ≠ .tstr ∧ typeOf e ≠ .tlist) →
        Pages.run_validation (.vlist l) = .error "Invalid pages config.") := by
  refine ⟨?_, rfl, ?_, ?_, ?_⟩
  · intro v h
    cases v with
    | vstr s => rfl
    | vint n => rfl
    | vbool b => rfl
    | vlist l => exact absurd rfl h
    | vdict l => rfl
  · intro l hne hall
    have h0 : ¬ l.length = 0 := by simpa using hne
    have h1 : l.all (fun e => typeOf e == .tstr || typeOf e == .tdict) = true := by
      rw [List.all_eq_true]
      intro e he
      rcases hall e he with h | h <;> rw [h] <;> decide
    simp [Pages.run_validation, h0, h1]
  · intro l hne hall hex
    have h0 : ¬ l.length = 0 := by simpa using hne
    have h1 : l.all (fun e => typeOf e == .tstr || typeOf e == .tdict) = false := by
      rcases hex with ⟨e, he, ht⟩
      rw [List.all_eq_false]
      exact ⟨e, he, by rw [ht]; decide⟩
    have h2 : l.all (fun e => typeOf e == .tstr || typeOf e == .tlist) = true := by
      rw [List.all_eq_true]
      intro e he
      rcases hall e he with h | h <;> rw [h] <;> decide
    simp [Pages.run_validation, h0, h1, h2]
  · intro l hne hex1 hex2
    have h0 : ¬ l.length = 0 := by simpa using hne
    have h1 : l.all (fun e => typeOf e == .tstr || typeOf e == .tdict) = false := by
      rcases hex1 with ⟨e, he, ht⟩
      rw [List.all_eq_false]
      refine ⟨e, he, ?_⟩
      simp [beq_eq_false_iff_ne, ht.1, ht.2]
    have h2 : l.all (fun e => typeOf e == .tstr || typeOf e == .tlist) = false := by
      rcases hex2 with ⟨e, he, ht⟩
      rw [List.all_eq_false]
      refine ⟨e, he, ?_⟩
      simp [beq_eq_false_iff_ne, ht.1, ht.2]
    simp [Pages.run_validation, h0, h1, h2]

/-- C7 witness: the five classification outcomes at concrete page
lists. -/
theorem C7_witness :
    Pages.run_validation (.vstr "about.md")
      = .error ("Expected a list, got " ++ typeName .tstr)
    ∧ Pages.run_validation (.vlist [.vstr "a.md", .vdict []])
      = .ok (some (.unchanged [.vstr "a.md", .vdict []]))
    ∧ Pages.run_validation (.vlist [.vstr "a.md", .vlist [.vstr "b.md"]])
      = .ok (some (.migrated [.vstr "a.md", .vlist [.vstr "b.md"]]))
    ∧ Pages.run_validation (.vlist [.vlist [.vstr "b.md"], .vdict []])
      = .error "Invalid pages config." :=
  ⟨C7_pages_shapes.1 (.vstr "about.md") (by decide),
   C7_pages_shapes.2.2.1 [.vstr "a.md", .vdict []] (List.cons_ne_nil _ _)
     (by decide),
   C7_pages_shapes.2.2.2.1 [.vstr "a.md", .vlist [.vstr "b.md"]] (List.cons_ne_nil _ _)
     (by decide)
     ⟨.vlist [.vstr "b.md"], by simp, rfl⟩,
   C7_pages_shapes.2.2.2.2 [.vlist [.vstr "b.md"], .vdict []] (List.cons_ne_nil _ _)
     ⟨.vlist [.vstr "b.md"], by simp, by decide⟩
     ⟨.vdict [], by simp, by decide⟩⟩

/-- C8: `NumPages.post_validation` leaves a non-absent field alone; on an
absent field it compares the page-list length against the threshold
(strictly greater), and an undeterminable length — absent `pages` or an
unsized value — degrades to false without raising. -/
theorem C8_numpages_threshold (at_lest : Nat) (pages : Option Val) :
    (∀ v, NumPages.post_validation at_lest (some v) pages = some v)
    ∧ (∀ l, NumPages.post_validation at_lest none (some (.vlist l))
        = some (.vbool (decide (l.length > at_lest))))
    ∧ NumPages.post_validation at_lest none none = some (.vbool false)
    ∧ (∀ p, pyLen p = none →
        NumPages.post_validation at_lest none (some p) = some (.vbool false))
    ∧ (∀ l : List Val, l.length ≤ 1 →
        NumPages.post_validation 1 none (some (.vlist l)) = some (.vbool false))
    ∧ (∀ l : List Val, l.length = 2 →
        NumPages.post_validation 1 none (some (.vlist l)) = some (.vbool true)) := by
  refine ⟨fun v => rfl, fun l => rfl, rfl, ?_, ?_, ?_⟩
  · intro p h
    simp [NumPages.post_validation, h]
  · intro l h
    have hn : ¬ (l.length > 1) := by omega
    simp [NumPages.post_validation, pyLen, hn]
  · intro l h
    have hn : l.length > 1 := by omega
    simp [NumPages.post_validation, pyLen, hn]

/-- C8 witness: threshold and degradation cases at concrete values. -/
theorem C8_witness :
    NumPages.post_validation 1 none (some (.vlist [])) = some (.vbool false)
    ∧ NumPages.post_validation 1 none (some (.vlist [.vstr "a.md", .vstr "b.md"]))
        = some (.vbool true)
    ∧ NumPages.post_validation 1 none (some (.vint 3)) = some (.vbool false) :=
  ⟨(C8_numpages_threshold 1 (some (.vlist []))).2.2.2.2.1 [] (by decide),
   (C8_numpages_threshold 1 (some (.vlist [.vstr "a.md", .vstr "b.md"]))).2.2.2.2.2
     [.vstr "a.md", .vstr "b.md"] rfl,
   (C8_numpages_threshold 1 (some (.vint 3))).2.2.2.1 (.vint 3) rfl⟩

/-- C10: a non-empty list of plain strings matches both recognized entry
shapes, the current-format branch is checked first, and the list is
returned unchanged — the legacy migration shim is never applied. -/
theorem C10_allstring_unchanged (l : List Val) :
    l ≠ [] → (∀ e ∈ l, typeOf e = .tstr) →
    Pages.run_validation (.vlist l) = .ok (some (.unchanged l)) := by
  intro hne hall
  have h0 : ¬ l.length = 0 := by simpa using hne
  have h1 : l.all (fun e => typeOf e == .tstr || typeOf e == .tdict) = true := by
    rw [List.all_eq_true]
    intro e he
    rw [hall e he]
    decide
  simp [Pages.run_validation, h0, h1]

/-- C10 witness: a concrete all-string page list comes back unchanged. -/
theorem C10_witness :
    Pages.run_validation (.vlist [.vstr "index.md", .vstr "about.md"])
      = .ok (some (.unchanged [.vstr "index.md", .vstr "about.md"])) :=
  C10_allstring_unchanged [.vstr "index.md", .vstr "about.md"]
    (List.cons_ne_nil _ _) (by decide)

/-- Invariant of the page-collection loop: starting from an accumulator
split as reversed-index part `I` followed by non-index part `N`, the
loop prepends the reversed index files and appends the non-index files
in order. -/
theorem pagesLoop_split (files : List String) : ∀ I N : List String,
    files.foldl (fun pages filename =>
        if isIndexFile filename then filename :: pages else pages ++ [filename]) (I ++ N)
      = ((files.filter isIndexFile).reverse ++ I)
          ++ (N ++ files.filter (fun f => ! isIndexFile f)) := by
  induction files with
  | nil => intro I N; simp
  | cons x xs ih =>
    intro I N
    rw [List.foldl_cons]
    by_cases hx : isIndexFile x = true
    · rw [if_pos hx]
      have h1 : x :: (I ++ N) = (x :: I) ++ N := rfl
      rw [h1, ih (x :: I) N]
      simp [List.filter_cons, hx, List.append_assoc]
    · rw [if_neg hx]
      rw [List.append_assoc, ih I (N ++ [x])]
      have hx' : isIndexFile x = false := by simpa using hx
      simp [List.filter_cons, hx', List.append_assoc]

/-- C9: the page-collection loop puts every file whose path without
extension is exactly `index` in front of all other discovered files
(reversed among themselves, appended files in walk order); on the
example docs tree with `index.md`, `a.md` and `b/c.md` the walk visits
each directory's files in sorted order, the reordered sequence is
`index.md`, `a.md`, `b/c.md`, and post-validation on an absent field
stores exactly the nesting transform applied to that sequence. -/
theorem C9_pages_autopopulation :
    (∀ files, pagesReorder files
        = (files.filter isIndexFile).reverse ++ files.filter (fun f => ! isIndexFile f))
    ∧ Extras.walk_docs_dir is_markdown_file exampleDocsTree = ["a.md", "index.md", "b/c.md"]
    ∧ pagesReorder (Extras.walk_docs_dir is_markdown_file exampleDocsTree)
        = ["index.md", "a.md", "b/c.md"]
    ∧ (∀ {α : Type} (nest : List String → α),
        Pages.post_validation nest none exampleDocsTree
          = some (nest ["index.md", "a.md", "b/c.md"])) := by
  refine ⟨?_, by decide, by decide, ?_⟩
  · intro files
    have h := pagesLoop_split files [] []
    simpa [pagesReorder] using h
  · intro α nest
    show some (nest (pagesReorder (Extras.walk_docs_dir is_markdown_file exampleDocsTree))) = _
    rw [show pagesReorder (Extras.walk_docs_dir is_markdown_file exampleDocsTree)
      = ["index.md", "a.md", "b/c.md"] from by decide]
